import Mathlib

/-!
Verification of the quantum Hamming (Steane) code demo in src/app.py.

The core of the program (encoding circuit, error injection, syndrome
extraction, decode table, correction) is embedded shallowly: a circuit is a
list of gates over 10 qubits and 3 classical bits.  The simulation backend is
an external collaborator; its ideal (noiseless) behaviour on the circuits this
program builds is modelled exactly: the only Hadamard is the initial one on
qubit 0, every later gate (X, Z, Y, CX) maps a computational basis state to a
single basis state times a power of i, so the state is always a sum of two
equal-magnitude orthogonal basis branches and the measurement distribution is
the frequency distribution of the classical bits over the branches.
-/

/-- Gates appearing in src/app.py: Hadamard, controlled-NOT, the Pauli
gates X, Z, Y, and measurement of a qubit into a classical bit. -/
inductive Gate
  | h (q : Nat)
  | cx (c t : Nat)
  | x (q : Nat)
  | z (q : Nat)
  | y (q : Nat)
  | meas (q c : Nat)
deriving DecidableEq

/-- A quantum circuit: number of qubits, number of classical bits, and the
ordered gate list (QuantumCircuit(10, 3) plus appended instructions). -/
structure Circuit where
  nqubits : Nat
  nclbits : Nat
  gates : List Gate
deriving DecidableEq

/-- steane_encode from src/app.py lines 28 to 43: QuantumCircuit(10, 3),
Hadamard on qubit 0, then the seven fixed CNOTs. -/
def steane_encode : Circuit :=
  { nqubits := 10, nclbits := 3,
    gates := [.h 0, .cx 0 1, .cx 0 2, .cx 1 3, .cx 2 3, .cx 1 4, .cx 2 5, .cx 3 6] }

/-- inject_error from src/app.py lines 45 to 51: appends x, z or y on the
given qubit according to the error string; any other string is a no-op.
The Python mutates qc in place; here the updated circuit is returned. -/
def inject_error (qc : Circuit) (qubit : Nat) (error : String) : Circuit :=
  if error = "X" then { qc with gates := qc.gates ++ [.x qubit] }
  else if error = "Z" then { qc with gates := qc.gates ++ [.z qubit] }
  else if error = "Y" then { qc with gates := qc.gates ++ [.y qubit] }
  else qc

/-- syndrome_measurement from src/app.py lines 53 to 61: nine ancilla parity
CNOTs followed by measurement of ancillas 7, 8, 9 into classical bits 0, 1, 2. -/
def syndrome_measurement (qc : Circuit) : Circuit :=
  { qc with gates := qc.gates ++
      [.cx 0 7, .cx 1 7, .cx 3 7,
       .cx 0 8, .cx 2 8, .cx 3 8,
       .cx 1 9, .cx 2 9, .cx 3 9,
       .meas 7 0, .meas 8 1, .meas 9 2] }

/-- SYNDROME_TABLE from src/app.py lines 63 to 71, in dict insertion order. -/
def SYNDROME_TABLE : List (String × Nat) :=
  [("001", 0), ("010", 1), ("011", 2), ("100", 3), ("101", 4), ("110", 5), ("111", 6)]

/-- Dictionary lookup, modelling `syndrome in SYNDROME_TABLE` followed by
`SYNDROME_TABLE[syndrome]`. -/
def tableLookup (s : String) : Option Nat :=
  (SYNDROME_TABLE.find? (fun p => p.1 == s)).map Prod.snd

/-- apply_correction from src/app.py lines 73 to 83: when the syndrome is a
key of the table, appends the gate matching error_type (nothing for other
strings) and returns the looked-up qubit; otherwise returns None.  The pair
holds the (possibly) mutated circuit and the Python return value. -/
def apply_correction (qc : Circuit) (syndrome : String) (error_type : String) :
    Circuit × Option Nat :=
  match tableLookup syndrome with
  | some q =>
      if error_type = "X" then ({ qc with gates := qc.gates ++ [.x q] }, some q)
      else if error_type = "Z" then ({ qc with gates := qc.gates ++ [.z q] }, some q)
      else if error_type = "Y" then ({ qc with gates := qc.gates ++ [.y q] }, some q)
      else (qc, some q)
  | none => (qc, none)

/-! Ideal simulation semantics (the AerSimulator collaborator, modelled from
the spec contract: shots independent ideal trials, counts over 3-bit outcome
strings).  A branch is one computational basis component of the state: its
qubit values, its classical bits, and its phase as a power of i (tracked
mod 4; phases never influence measurement statistics). -/

/-- One computational basis branch of the quantum state. -/
structure Branch where
  phase : Nat
  qbits : List Bool
  cbits : List Bool
deriving DecidableEq

/-- Value of bit i (false when out of range). -/
def getBit (bs : List Bool) (i : Nat) : Bool := bs.getD i false

/-- Set bit i to v. -/
def setBit (bs : List Bool) (i : Nat) (v : Bool) : List Bool := bs.set i v

/-- Flip bit i. -/
def flipBit (bs : List Bool) (i : Nat) : List Bool := bs.set i (!getBit bs i)

/-- Action of one gate on one basis branch, as quantum mechanics dictates:
X flips the bit; Z multiplies by minus one (i squared) when the bit is set;
Y flips the bit with phase i on a zero bit and minus i on a set bit; CX flips
the target when the control is set; H on a basis state yields the two branches
with a minus sign (phase plus 2) on the all-set component; measurement copies
the qubit value into the classical bit (deferred measurement, exact here since
all measurements are terminal). -/
def applyGate : Gate → Branch → List Branch
  | .x q, b => [{ b with qbits := flipBit b.qbits q }]
  | .z q, b => [{ b with phase := (b.phase + if getBit b.qbits q then 2 else 0) % 4 }]
  | .y q, b => [{ b with qbits := flipBit b.qbits q,
                         phase := (b.phase + if getBit b.qbits q then 3 else 1) % 4 }]
  | .cx c t, b => [if getBit b.qbits c then { b with qbits := flipBit b.qbits t } else b]
  | .h q, b =>
      [{ b with qbits := setBit b.qbits q false },
       { b with qbits := setBit b.qbits q true,
                phase := (b.phase + if getBit b.qbits q then 2 else 0) % 4 }]
  | .meas q c, b => [{ b with cbits := setBit b.cbits c (getBit b.qbits q) }]

/-- Run a gate list over a set of branches. -/
def runGates : List Gate → List Branch → List Branch
  | [], bs => bs
  | g :: gs, bs => runGates gs (bs.flatMap (applyGate g))

/-- The initial all-zero state of a circuit. -/
def initBranch (c : Circuit) : Branch :=
  { phase := 0,
    qbits := List.replicate c.nqubits false,
    cbits := List.replicate c.nclbits false }

/-- Ideal simulation of a circuit from the all-zero state. -/
def runCircuit (c : Circuit) : List Branch :=
  runGates c.gates [initBranch c]

/-- Character of a classical bit. -/
def bitChar (b : Bool) : Char := if b then '1' else '0'

/-- Qiskit renders a counts key with classical bit 0 rightmost (little
endian), so the string is bit 2, bit 1, bit 0. -/
def outcomeString (cbits : List Bool) : String :=
  String.mk (cbits.reverse.map bitChar)

/-- Outcome string of every branch of the ideal simulation.  Every branch has
the same squared amplitude (a single Hadamard splits the state once and all
later gates are phase-decorated permutations of basis states), so outcome
probabilities are branch frequencies in this list. -/
def outcomes (c : Circuit) : List String :=
  (runCircuit c).map (fun b => outcomeString b.cbits)

/-- Frequency tally in first-occurrence order, modelling the Python dict of
counts built in insertion order. -/
def tally (xs : List String) : List (String × Nat) :=
  xs.foldl
    (fun acc s =>
      if acc.any (fun p => p.1 == s) then
        acc.map (fun p => if p.1 == s then (p.1, p.2 + 1) else p)
      else acc ++ [(s, 1)])
    []

/-- Modelled from the spec: result.get_counts() of the external AerSimulator
collaborator under ideal noiseless execution, a map from outcome strings to
counts summing to the shot number, each branch occurring with its ideal
probability (branch multiplicity over total branches). -/
def idealCounts (c : Circuit) (shots : Nat) : List (String × Nat) :=
  (tally (outcomes c)).map (fun p => (p.1, p.2 * shots / (outcomes c).length))

/-- Python max(counts, key=counts.get): the first key attaining the maximal
count in iteration order; raises on an empty dict, modelled as none. -/
def maxByCount : List (String × Nat) → Option String
  | [] => none
  | p :: ps => some ((ps.foldl (fun best q => if q.2 > best.2 then q else best) p).1)

/-- Circuit built by the run block of src/app.py lines 122 to 133: encode,
inject only when the selected error type is not the string None, then append
syndrome extraction. -/
def pipelineCircuit (error_type : String) (error_qubit : Nat) : Circuit :=
  syndrome_measurement
    (if error_type ≠ "None" then inject_error steane_encode error_qubit error_type
     else steane_encode)

/-- Observable result of one run: the final (possibly corrected) circuit, the
selected syndrome, and the corrected qubit reported to the user. -/
structure RunResult where
  finalCircuit : Circuit
  syndrome : String
  corrected : Option Nat
deriving DecidableEq

/-- The run block of src/app.py lines 122 to 151 under ideal simulation:
build the pipeline circuit, take the most frequent outcome (none models the
ValueError of max on an empty counts dict), and call apply_correction only
when the error type is not the string None (corrected stays None otherwise). -/
def runPipeline (error_type : String) (error_qubit shots : Nat) : Option RunResult :=
  match maxByCount (idealCounts (pipelineCircuit error_type error_qubit) shots) with
  | none => none
  | some syndrome =>
      if error_type ≠ "None" then
        some { finalCircuit := (apply_correction (pipelineCircuit error_type error_qubit)
                                 syndrome error_type).1,
               syndrome := syndrome,
               corrected := (apply_correction (pipelineCircuit error_type error_qubit)
                               syndrome error_type).2 }
      else
        some { finalCircuit := pipelineCircuit error_type error_qubit,
               syndrome := syndrome,
               corrected := none }

/-! Definitions written from the words of the spec, for the refinement
claims about the encoding and syndrome-extraction wiring. -/

/-- The seven control and target pairs named by the spec for buildEncoded. -/
def specEncodePairs : List (Nat × Nat) :=
  [(0, 1), (0, 2), (1, 3), (2, 3), (1, 4), (2, 5), (3, 6)]

/-- The encoded circuit as the spec describes it: 10 qubits, 3 classical
bits, a Hadamard on qubit 0, then the seven CNOTs of specEncodePairs in
order and nothing else. -/
def specEncoded : Circuit :=
  { nqubits := 10, nclbits := 3,
    gates := Gate.h 0 :: specEncodePairs.map (fun p => Gate.cx p.1 p.2) }

/-- The three parity-check groups named by the spec: control qubits, ancilla,
classical bit. -/
def specParityGroups : List (List Nat × Nat × Nat) :=
  [([0, 1, 3], (7, 0)), ([0, 2, 3], (8, 1)), ([1, 2, 3], (9, 2))]

/-- The syndrome-extraction gate sequence as the spec describes it: for each
group the CNOTs from its control qubits into its ancilla, then the three
ancilla measurements into their classical bits. -/
def specSyndromeGates : List Gate :=
  (specParityGroups.flatMap (fun g => g.1.map (fun c => Gate.cx c g.2.1))) ++
  specParityGroups.map (fun g => Gate.meas g.2.1 g.2.2)

/-- The seven nonzero 3-bit strings. -/
def nonzeroSyndromes : List String :=
  ["001", "010", "011", "100", "101", "110", "111"]

/-! Helper lemmas. -/

/-- When the ideal simulation is deterministic (both branches give outcome s),
the counts distribution concentrates all shots on s. -/
lemma counts_det (c : Circuit) (s : String) (shots : Nat) (h : outcomes c = [s, s]) :
    idealCounts c shots = [(s, shots)] := by
  unfold idealCounts
  rw [h]
  simp [tally]

/-- With error type None the pipeline circuit is the encoded circuit plus
syndrome extraction: the injection branch is skipped. -/
lemma pipelineCircuit_none (q : Nat) :
    pipelineCircuit "None" q = syndrome_measurement steane_encode := by
  unfold pipelineCircuit
  rw [if_neg (by decide : ¬ (("None" : String) ≠ "None"))]

/-- Ideal simulation of the uninjected pipeline: both branches measure 000. -/
lemma outcomes_no_injection :
    outcomes (syndrome_measurement steane_encode) = ["000", "000"] := by
  decide

/-- Ideal simulation with a bit flip on qubit 3: both branches measure 111. -/
lemma outcomes_x3 : outcomes (pipelineCircuit "X" 3) = ["111", "111"] := by
  decide

/-- The second component of apply_correction equals the table lookup. -/
lemma apply_correction_snd (qc : Circuit) (s t : String) :
    (apply_correction qc s t).2 = tableLookup s := by
  unfold apply_correction
  cases h : tableLookup s with
  | none => rfl
  | some q =>
      by_cases h1 : t = "X" <;> by_cases h2 : t = "Z" <;> by_cases h3 : t = "Y" <;>
        simp [h1, h2, h3]

/-- Every value of the syndrome table is at most 6. -/
lemma tableLookup_le6 (s : String) (q : Nat) (h : tableLookup s = some q) : q ≤ 6 := by
  unfold tableLookup at h
  cases hf : SYNDROME_TABLE.find? (fun p => p.1 == s) with
  | none => rw [hf] at h; simp at h
  | some p =>
      rw [hf] at h
      simp at h
      have hm : p ∈ SYNDROME_TABLE := List.mem_of_find?_eq_some hf
      have hall : ∀ x ∈ SYNDROME_TABLE, x.2 ≤ 6 := by decide
      rw [← h]
      exact hall p hm

/-! Claim theorems. -/

/-- C1: the spec demands that injecting any non-None error kind at any data
qubit q yields, under ideal simulation, the syndrome the table maps back to
q.  The code violates this: an X on qubit 0 deterministically yields syndrome
011, which SYNDROME_TABLE maps to qubit 2 (and the correction then targets
qubit 2); a Z on qubit 3 and an X on qubit 4 both yield 000, so those errors
go undetected entirely. -/
theorem c1_wiring_table_mismatch :
    (runPipeline "X" 0 1024).map RunResult.syndrome = some "011" ∧
    tableLookup "011" = some 2 ∧
    (runPipeline "X" 0 1024).map RunResult.corrected = some (some 2) ∧
    (runPipeline "Z" 3 1024).map RunResult.syndrome = some "000" ∧
    (runPipeline "X" 4 1024).map RunResult.syndrome = some "000" := by
  decide

/-- C2: the claim (and the spec scenario) says that a bit flip on qubit 3
selects syndrome 111, that 111 decodes to qubit 3, and that the correction
applies X to qubit 3.  The code does select syndrome 111, but SYNDROME_TABLE
maps 111 to qubit 6, so the correction appends the X gate on qubit 6, not on
qubit 3: the decode table is inconsistent with the parity-check wiring. -/
theorem c2_bitflip_qubit3_decodes_to_6 :
    (runPipeline "X" 3 1024).map RunResult.syndrome = some "111" ∧
    tableLookup "111" = some 6 ∧
    runPipeline "X" 3 1024 =
      some { finalCircuit :=
               { syndrome_measurement (inject_error steane_encode 3 "X") with
                 gates := (syndrome_measurement (inject_error steane_encode 3 "X")).gates
                            ++ [Gate.x 6] },
             syndrome := "111",
             corrected := some 6 } := by
  decide

/-- C3: SYNDROME_TABLE is a bijection: its keys are exactly the seven nonzero
3-bit strings, its values are exactly 0 through 6 without repetition, and any
qubit index a correction returns is at most 6, so ancillas 7 to 9 are never
correction targets. -/
theorem c3_table_bijection (qc : Circuit) (s t : String) (q : Nat)
    (h : (apply_correction qc s t).2 = some q) :
    SYNDROME_TABLE.map Prod.fst = nonzeroSyndromes ∧
    SYNDROME_TABLE.map Prod.snd = [0, 1, 2, 3, 4, 5, 6] ∧
    (SYNDROME_TABLE.map Prod.snd).Nodup ∧
    q ≤ 6 := by
  refine ⟨by decide, by decide, by decide, ?_⟩
  apply tableLookup_le6 s
  rw [← apply_correction_snd qc s t]
  exact h

/-- C3 witness: the bijection statement instantiated at a concrete correction
call returning qubit 6. -/
theorem c3_table_bijection_witness :
    SYNDROME_TABLE.map Prod.fst = nonzeroSyndromes ∧
    SYNDROME_TABLE.map Prod.snd = [0, 1, 2, 3, 4, 5, 6] ∧
    (SYNDROME_TABLE.map Prod.snd).Nodup ∧
    6 ≤ 6 :=
  c3_table_bijection steane_encode "111" "X" 6 (by decide)

/-- C4: with error type None the pipeline, for every target qubit choice and
every shot count, deterministically yields syndrome 000, the table decodes
000 to none, no correction is applied (the final circuit is exactly the
encoded circuit plus syndrome extraction) and corrected is None, reported as
no error detected. -/
theorem c4_none_error (q shots : Nat) :
    runPipeline "None" q shots =
      some { finalCircuit := syndrome_measurement steane_encode,
             syndrome := "000",
             corrected := none } ∧
    tableLookup "000" = none := by
  constructor
  · unfold runPipeline
    rw [pipelineCircuit_none q,
        counts_det (syndrome_measurement steane_encode) "000" shots outcomes_no_injection]
    rfl
  · rfl

/-- C5: syndrome_measurement appends exactly the spec gate sequence: for each
parity group the CNOTs from its data qubits into its ancilla (qubits 0, 1, 3
into ancilla 7; 0, 2, 3 into 8; 1, 2, 3 into 9) followed by the three
measurements of ancillas 7, 8, 9 into classical bits 0, 1, 2, and nothing
else. -/
theorem c5_syndrome_wiring (qc : Circuit) :
    syndrome_measurement qc = { qc with gates := qc.gates ++ specSyndromeGates } := by
  rfl

/-- C6: steane_encode builds a circuit with 10 qubits and 3 classical bits
whose gate list is exactly a Hadamard on qubit 0 followed by the seven CNOTs
of the spec pair list in order, and nothing else. -/
theorem c6_encode_structure : steane_encode = specEncoded := by
  decide

/-- C7 counterexample: on the malformed syndrome string 10 (not a 3-character
bitstring), apply_correction does not fail: it returns the value None with
the circuit unchanged. -/
theorem c7_no_invalid_syndrome_failure :
    apply_correction steane_encode "10" "X" = (steane_encode, none) := by
  decide

/-- C7 amended: decode returns None for any string that is not a key of the
table, with the circuit untouched; this covers 000 and every malformed
string alike, and no InvalidSyndrome failure path exists in the code. -/
theorem c7_decode_none (qc : Circuit) (s t : String) (h : tableLookup s = none) :
    apply_correction qc s t = (qc, none) := by
  unfold apply_correction
  rw [h]

/-- C7 witness: the amended statement at the all-zero syndrome. -/
theorem c7_decode_none_witness :
    tableLookup "000" = none ∧
    apply_correction steane_encode "000" "X" = (steane_encode, none) :=
  ⟨by decide, c7_decode_none steane_encode "000" "X" (by decide)⟩

/-- C8 counterexample: injecting a bit flip at qubit 9 (an ancilla, outside
0 to 6) raises nothing and silently mutates the circuit: the X gate on qubit
9 is appended. -/
theorem c8_no_configuration_error :
    inject_error steane_encode 9 "X" =
      { steane_encode with gates := steane_encode.gates ++ [Gate.x 9] } := by
  decide

/-- C8 amended: inject_error performs no index validation at all: for every
qubit index, in range or not, it appends the gate matching the error string. -/
theorem c8_inject_unvalidated (qc : Circuit) (q : Nat) :
    inject_error qc q "X" = { qc with gates := qc.gates ++ [Gate.x q] } ∧
    inject_error qc q "Z" = { qc with gates := qc.gates ++ [Gate.z q] } ∧
    inject_error qc q "Y" = { qc with gates := qc.gates ++ [Gate.y q] } :=
  ⟨rfl, rfl, rfl⟩

/-- C9 counterexample: with shots equal to 0 the run block raises no
InvalidConfiguration: the pipeline still completes and selects syndrome 111
for a bit flip on qubit 3. -/
theorem c9_no_shots_validation :
    (runPipeline "X" 3 0).isSome = true ∧
    (runPipeline "X" 3 0).map RunResult.syndrome = some "111" := by
  decide

/-- C9 amended: the run block performs no shots validation (any shot count,
including 0, executes and yields the deterministic syndrome; the UI slider
alone restricts shots to 256 through 2048), an empty counts distribution
makes syndrome selection fail (the max builtin on an empty dict, modelled as
none) rather than raising a named SimulationFailure, and shots equal to 1
still yields a valid single-trial syndrome. -/
theorem c9_run_behaviour (shots : Nat) :
    maxByCount [] = none ∧
    (runPipeline "X" 3 shots).map RunResult.syndrome = some "111" ∧
    (runPipeline "X" 3 1).map RunResult.syndrome = some "111" := by
  refine ⟨rfl, ?_, by decide⟩
  unfold runPipeline
  rw [counts_det (pipelineCircuit "X" 3) "111" shots outcomes_x3]
  rfl

/-- C10: when the syndrome is a key of the table but the error type is none
of X, Z, Y (for example the string None), apply_correction still returns the
looked-up qubit while appending no gate; and for a syndrome outside the table
it returns None with the circuit unchanged — a non-None return does not imply
a gate was appended. -/
theorem c10_correction_frame (qc : Circuit) (s s2 t : String) (q : Nat)
    (h1 : tableLookup s = some q) (hx : t ≠ "X") (hz : t ≠ "Z") (hy : t ≠ "Y")
    (h2 : tableLookup s2 = none) :
    apply_correction qc s t = (qc, some q) ∧ apply_correction qc s2 t = (qc, none) := by
  constructor
  · unfold apply_correction
    rw [h1]
    simp [hx, hz, hy]
  · unfold apply_correction
    rw [h2]

/-- C10 witness: the frame statement at syndrome 001 with error type None and
the non-key string xy. -/
theorem c10_correction_frame_witness :
    apply_correction steane_encode "001" "None" = (steane_encode, some 0) ∧
    apply_correction steane_encode "xy" "None" = (steane_encode, none) :=
  c10_correction_frame steane_encode "001" "xy" "None" 0
    (by decide) (by decide) (by decide) (by decide) (by decide)
